import Mathlib

/-!
# Verification of `panel/param.py`

A shallow embedding of the module `src/panel/param.py`, which bridges
`param`-style attribute metadata to UI widget construction, together with
theorems settling the specification claims about it.

Conventions of the embedding:

* Python values flowing through the code (current attribute values, JSON
  specifications) are modelled by `PyValue`.  Python numbers are modelled as
  integers or rationals.
* Fallible Python code is modelled with explicit error results (`PyErr`):
  an uncaught exception is an `error` value.
* The module under scrutiny references the global names `os`, `json` and
  `named_objs` although its import list (lines 1-14 of the source) never
  binds them.  Python resolves global names at use time, so the embedding
  threads the list of names actually bound at module level and models each
  such reference as a lookup that produces `NameError` when the name is
  absent.
* Python dicts are modelled as association lists with Python's update
  semantics: inserting an existing key overwrites its value in place,
  inserting a fresh key appends.
-/

mutual
/-- A Python run-time value, as far as this module inspects values:
`None`, booleans, ints, floats (modelled as rationals), strings, lists and
string-keyed dicts. -/
inductive PyValue : Type where
  | pynone : PyValue
  | pybool (b : Bool) : PyValue
  | pyint (n : Int) : PyValue
  | pynum (q : ℚ) : PyValue
  | pystr (s : String) : PyValue
  | pylist (xs : PyList) : PyValue
  | pydict (xs : PyDict) : PyValue
/-- A list of `PyValue`s (mutually defined to keep equality decidable). -/
inductive PyList : Type where
  | nil : PyList
  | cons (v : PyValue) (t : PyList) : PyList
/-- Entries of a string-keyed Python dict, in insertion order. -/
inductive PyDict : Type where
  | nil : PyDict
  | cons (k : String) (v : PyValue) (t : PyDict) : PyDict
end

deriving instance DecidableEq for PyValue, PyList, PyDict

/-- Convert the embedded list representation to a Lean list. -/
def PyList.toList : PyList → List PyValue
  | .nil => []
  | .cons v t => v :: PyList.toList t

/-- The entries of an embedded dict, in order. -/
def PyDict.entries : PyDict → List (String × PyValue)
  | .nil => []
  | .cons k v t => (k, v) :: PyDict.entries t

/-- `isinstance(value, dict)`. -/
def PyValue.isDict : PyValue → Bool
  | .pydict _ => true
  | _ => false

/-- Python's `str()` coercion, as used by `'{0}'.format(...)` on line 114.
Only the cases the claims exercise matter; containers get a placeholder. -/
def pyStr : PyValue → String
  | .pynone => "None"
  | .pybool true => "True"
  | .pybool false => "False"
  | .pyint n => toString n
  | .pynum q => toString q
  | .pystr s => s
  | .pylist _ => "[...]"
  | .pydict _ => "{...}"

/-- An uncaught Python exception. -/
inductive PyErr : Type where
  | nameError (n : String)
  | keyError (k : String)
  | valueError (msg : String)
  | unboundLocalError (n : String)
  | attributeError (msg : String)
deriving DecidableEq

deriving instance DecidableEq for Except

/-- Names bound at module level by `src/panel/param.py` lines 1-14 (imports)
together with the two classes the module itself defines.  Crucially, `os`,
`json` and `named_objs` are absent. -/
def moduleGlobals : List String :=
  ["itertools", "partial", "param", "Div", "Panel", "WidgetBox",
   "default_label_formatter", "LiteralInput", "Select", "Checkbox",
   "FloatSlider", "IntSlider", "RangeSlider", "MultiSelect", "DatePicker",
   "ParamPanel", "JSONInit"]

/-- Python dict update: overwrite the value of an existing key in place,
append a fresh key. -/
def pyDictInsert {κ ω : Type} [DecidableEq κ] : List (κ × ω) → κ → ω → List (κ × ω)
  | [], k, v => [(k, v)]
  | q :: t, k, v => if q.1 = k then (k, v) :: t else q :: pyDictInsert t k v

/-- The dict built by a Python dict comprehension over `pairs`, in order. -/
def pyDictOf {κ ω : Type} [DecidableEq κ] (pairs : List (κ × ω)) : List (κ × ω) :=
  pairs.foldl (fun d q => pyDictInsert d q.1 q.2) []

/-- Python dict subscript lookup, `d[k]`, as an option. -/
def pyDictGet? {κ ω : Type} [DecidableEq κ] (d : List (κ × ω)) (k : κ) : Option ω :=
  (d.find? fun q => decide (q.1 = k)).map (·.2)

/-- The exact runtime type of a parameter object, i.e. the keys usable in
the `_mapping` dict lookup `self._mapping[type(p_obj)]` (an exact-type
lookup, not an `isinstance` check). -/
inductive PKind : Type where
  | parameter | dict | selector | boolean | number | integer | range
  | listSelector | date | string | fileSelector | action
deriving DecidableEq

/-- Printable name of a parameter kind, used as the `KeyError` payload. -/
def kindName : PKind → String
  | .parameter => "Parameter"
  | .dict => "Dict"
  | .selector => "Selector"
  | .boolean => "Boolean"
  | .number => "Number"
  | .integer => "Integer"
  | .range => "Range"
  | .listSelector => "ListSelector"
  | .date => "Date"
  | .string => "String"
  | .fileSelector => "FileSelector"
  | .action => "Action"

/-- The widget classes imported on lines 11-14. -/
inductive WidgetClass : Type where
  | literalInput | select | checkbox | floatSlider | intSlider | rangeSlider
  | multiSelect | datePicker
deriving DecidableEq

/-- The Widget Mapping Table `ParamPanel._mapping` (source lines 43-53),
keyed by exact parameter type; kinds outside the table have no entry. -/
def pp_mapping : PKind → Option WidgetClass
  | .parameter => some .literalInput
  | .dict => some .literalInput
  | .selector => some .select
  | .boolean => some .checkbox
  | .number => some .floatSlider
  | .integer => some .intSlider
  | .range => some .rangeSlider
  | .listSelector => some .multiSelect
  | .date => some .datePicker
  | _ => none

/-- One attribute ("parameter") of the target object, as this module
observes it through the external attribute-metadata system: its exact
runtime type, the current value readable via `getattr`, the declared
precedence (possibly absent), and the optional duck-typed capabilities
`get_range` (an enumerated range as `(label, value)` pairs, the result of
`.get_range().items()`) and `get_soft_bounds`. -/
structure PParam where
  kind : PKind
  value : PyValue
  precedence : Option ℚ
  get_range : Option (List (String × PyValue))
  get_soft_bounds : Option (PyValue × PyValue)
deriving DecidableEq

/-- The target object: its ordered `params()` collection, each name paired
with the parameter's metadata and current value. -/
abbrev TargetObject : Type := List (String × PParam)

/-- `self.object.params(p_name)` / `getattr`-style lookup of one attribute. -/
def paramsGet? (obj : TargetObject) (n : String) : Option PParam :=
  (obj.find? fun q => decide (q.1 = n)).map (·.2)

/-- The constructed control: widget class, the keyword set it was built
with (`value`, `name` label, `options`, `start`/`end`), the attribute name
bound into its value-change watcher (line 93), and the cached
`self._widget_options[p_name]` entry written on line 85. -/
structure Widget where
  widget_class : WidgetClass
  value : PyValue
  label : String
  options : Option (List (String × String))
  startv : Option PyValue
  endv : Option PyValue
  bound : String
  opt_lookup : Option (List (String × PyValue))
deriving DecidableEq

/-- Modelled from the spec: the helper `named_objs`, which the source calls
on line 75 but which exists only outside `src/` — per the specification the
options are built "from the range's (label, value) pairs", so the helper is
the identity on the `(label, value)` pair list produced by
`p_obj.get_range().items()`. -/
def named_objs_spec (pairs : List (String × PyValue)) : List (String × PyValue) :=
  pairs

/-- The result of the options block of `widget` (lines 74-87): the possibly
remapped `kw['value']`, the `kw['options']` pair list, and the cached
label-to-value lookup. -/
def OptionsOut : Type := PyValue × Option (List (String × String)) × Option (List (String × PyValue))

/-- Lines 78-83: remap a list-valued current value elementwise through the
value-to-label reverse `lookup`; a missing key raises `KeyError`. -/
def lookupList (lkup : List (PyValue × String)) : List PyValue → Except PyErr (List String)
  | [] => .ok []
  | v :: vs =>
    match pyDictGet? lkup v with
    | none => .error (.keyError (pyStr v))
    | some lab =>
      match lookupList lkup vs with
      | .ok labs => .ok (lab :: labs)
      | .error e => .error e

/-- Lines 74-87 of `widget`: the enumerated-range block.  `nObjs` is the
resolution of the global name `named_objs` (absent in the module itself).
Executed only when `hasattr(p_obj, 'get_range')` holds and the current
value is not a dict. -/
def optionsBlock (nObjs : Option (List (String × PyValue) → List (String × PyValue)))
    (p : PParam) (items : List (String × PyValue)) (value : PyValue) :
    Except PyErr OptionsOut :=
  match nObjs with
  | none => .error (.nameError "named_objs")
  | some f =>
    let options := f items
    let lkup : List (PyValue × String) := pyDictOf (options.map fun q => (q.2, q.1))
    let opt_lookup : List (String × PyValue) := pyDictOf options
    let optPairs : List (String × String) := options.map fun q => (q.1, q.1)
    match value with
    | .pylist vs =>
      match lookupList lkup vs.toList with
      | .ok labs =>
        .ok (.pylist (labs.foldr (fun s acc => PyList.cons (.pystr s) acc) .nil),
             some optPairs, some opt_lookup)
      | .error e => .error e
    | _ =>
      if p.kind = .fileSelector ∧ value = .pynone then
        .ok (.pystr "", some optPairs, some opt_lookup)
      else
        match pyDictGet? lkup value with
        | none => .error (.keyError (pyStr value))
        | some lab => .ok (.pystr lab, some optPairs, some opt_lookup)

/-- The Widget Factory `ParamPanel.widget` (source lines 60-94), with the
resolution of the global `named_objs` passed in as `nObjs` and the
configured `label_formatter` as `lf` (`none` models a `None` formatter). -/
def widgetImpl (nObjs : Option (List (String × PyValue) → List (String × PyValue)))
    (lf : Option (String → String)) (obj : TargetObject) (p_name : String) :
    Except PyErr Widget :=
  match paramsGet? obj p_name with
  | none => .error (.keyError p_name)
  | some p =>
    match pp_mapping p.kind with
    | none => .error (.keyError (kindName p.kind))
    | some wclass =>
      let value := p.value
      let label := match lf with | some f => f p_name | none => p_name
      let afterRange : Except PyErr OptionsOut :=
        match p.get_range with
        | some items =>
          if value.isDict then .ok (value, none, none)
          else optionsBlock nObjs p items value
        | none => .ok (value, none, none)
      match afterRange with
      | .error e => .error e
      | .ok (value2, opts, optLk) =>
        let bounds := p.get_soft_bounds
        .ok { widget_class := wclass
              value := value2
              label := label
              options := opts
              startv := bounds.map (·.1)
              endv := bounds.map (·.2)
              bound := p_name
              opt_lookup := optLk }

/-- Resolution of the global name `named_objs` against a module namespace:
unbound names raise `NameError`; when bound, the behaviour is the
spec-modelled helper. -/
def namedObjsResolve (globals : List String) :
    Option (List (String × PyValue) → List (String × PyValue)) :=
  if "named_objs" ∈ globals then some named_objs_spec else none

/-- `ParamPanel.widget` as the module actually defines it: `named_objs`
resolved against the module's real global namespace (where it is unbound). -/
def widget (lf : Option (String → String)) (obj : TargetObject) (p_name : String) :
    Except PyErr Widget :=
  widgetImpl (namedObjsResolve moduleGlobals) lf obj p_name

/-- Counterfactual repair of the widget factory, the analogue of
`repairedGlobals` for the missing imports: `ParamPanel.widget` as it would
behave if the missing helper `named_objs` were bound (to its spec model
`named_objs_spec`).  The program itself never binds the name, so `widget`,
not this repair, is the embedding of the code; this definition only
exhibits the intended behaviour inside code-bug findings. -/
def widgetRepaired (lf : Option (String → String)) (obj : TargetObject) (p_name : String) :
    Except PyErr Widget :=
  widgetImpl (some named_objs_spec) lf obj p_name

/-- Lexicographic comparison of character lists by code point, written
structurally so that the kernel can evaluate it. -/
def charListLe : List Char → List Char → Bool
  | [], _ => true
  | _ :: _, [] => false
  | c :: cs, d :: ds =>
    if c.toNat < d.toNat then true
    else if d.toNat < c.toNat then false
    else charListLe cs ds

/-- Python string comparison `a <= b`: lexicographic by code point.  This
is the comparison `sorted` applies to the first components of the
`(name, parameter)` tuples on line 109. -/
def strLe (a b : String) : Bool :=
  charListLe a.data b.data

/-- The sort/group key of `_get_widgets` (source line 104): the declared
precedence when present, else the panel's `default_precedence` `dp`. -/
def key_fn (dp : ℚ) (x : String × PParam) : ℚ :=
  x.2.precedence.getD dp

/-- Line 105, `sorted(params, key=key_fn)`.  Python's sort is stable; a
stable sort's output is uniquely determined by the key order, and
`List.insertionSort` (which keeps an element before the equal-key elements
it is inserted among) is such a stable sort. -/
def sorted_precedence (dp : ℚ) (ps : List (String × PParam)) : List (String × PParam) :=
  List.insertionSort (fun a b => key_fn dp a ≤ key_fn dp b) ps

/-- Lines 106-107: keep attributes whose precedence is undeclared or at
least the `display_threshold` `dt`. -/
def filteredParams (dp dt : ℚ) (ps : List (String × PParam)) : List (String × PParam) :=
  (sorted_precedence dp ps).filter fun x =>
    match x.2.precedence with
    | none => true
    | some q => decide (q ≥ dt)

/-- Line 108, `itertools.groupby(filtered, key=key_fn)`: maximal runs of
consecutive elements with equal key.  (`groupby` compares each key to the
key that started the current group; `List.splitBy` compares adjacent keys;
the two coincide because rational equality is transitive.) -/
def precedenceGroups (dp dt : ℚ) (ps : List (String × PParam)) : List (List (String × PParam)) :=
  (filteredParams dp dt ps).splitBy fun a b => decide (key_fn dp a = key_fn dp b)

/-- Line 109, `[sorted(grp) for (k, grp) in groups]`: each group of
`(name, parameter)` tuples is sorted by tuple comparison, which orders by
name and consults the second component only on equal names; names coming
from `params().items()` are distinct, so this is a sort by name. -/
def sorted_groups (dp dt : ℚ) (ps : List (String × PParam)) : List (List (String × PParam)) :=
  (precedenceGroups dp dt ps).map (List.insertionSort fun a b => strLe a.1 b.1 = true)

/-- The `(name, parameter)` pairs underlying line 110's flattening, before
the projection to names. -/
def orderedPairs (dp dt : ℚ) (ps : List (String × PParam)) : List (String × PParam) :=
  (sorted_groups dp dt ps).flatten

/-- Line 110: `ordered_params = [el[0] for group in sorted_groups for el in group]`. -/
def ordered_params (dp dt : ℚ) (ps : List (String × PParam)) : List String :=
  (orderedPairs dp dt ps).map (·.1)

/-- Line 113, `ordered_params.pop(ordered_params.index('name'))`: removes
the first occurrence of `'name'`; `.index` raises `ValueError` when the
element is absent. -/
def popName (l : List String) : Except PyErr (List String) :=
  if "name" ∈ l then .ok (l.erase "name") else .error (.valueError "'name' is not in list")

/-- `self.object.name` as rendered by `'{0}'.format` on line 114 (reads the
`name` attribute's current value; only reached after `popName` found it). -/
def objectNameStr (obj : TargetObject) : String :=
  match paramsGet? obj "name" with
  | some p => pyStr p.value
  | none => ""

/-- One entry of the list `_get_widgets` returns: the heading
`Panel.to_panel(Div(...))` or one constructed attribute control. -/
inductive PanelItem : Type where
  | divItem (text : String)
  | widgetItem (w : Widget)
deriving DecidableEq

/-- Line 115's comprehension `[self.widget(pname) for pname in ordered_params]`;
the first exception raised by `widget` propagates. -/
def widgetList (lf : Option (String → String)) (obj : TargetObject) :
    List String → Except PyErr (List Widget)
  | [] => .ok []
  | n :: ns =>
    match widget lf obj n with
    | .error e => .error e
    | .ok w =>
      match widgetList lf obj ns with
      | .error e => .error e
      | .ok ws => .ok (w :: ws)

/-- The Panel Assembler `ParamPanel._get_widgets` (source lines 101-116):
the sorting/filtering/grouping pipeline, removal of `'name'`, the bolded
heading for the object's name, then one control per remaining attribute. -/
def get_widgets (lf : Option (String → String)) (obj : TargetObject) (dp dt : ℚ) :
    Except PyErr (List PanelItem) :=
  match popName (ordered_params dp dt obj) with
  | .error e => .error e
  | .ok ordered =>
    match widgetList lf obj ordered with
    | .error e => .error e
    | .ok ws =>
      .ok (.divItem ("<b>" ++ objectNameStr obj ++ "</b>") :: ws.map .widgetItem)

/-- A value-change event as delivered to the Change Relay; `new` is the
value the control now holds. -/
structure ChangeEvent where
  old : PyValue
  new : PyValue
deriving DecidableEq

/-- The external attribute-set operation `setattr(self.object, name, v)` on
a parameterized object: the target's own contract (`validate`) may reject
the value with a `ValueError` message, otherwise the attribute is updated
in place. -/
def pySetattr (validate : String → PyValue → Option String)
    (store : List (String × PyValue)) (n : String) (v : PyValue) :
    Except String (List (String × PyValue)) :=
  match validate n v with
  | some msg => .error msg
  | none => .ok (pyDictInsert store n v)

/-- The Change Relay `ParamPanel._apply_change` (source lines 97-98):
`setattr(self.object, p_name, change.new)` — nothing else. -/
def apply_change (validate : String → PyValue → Option String)
    (store : List (String × PyValue)) (p_name : String) (change : ChangeEvent) :
    Except String (List (String × PyValue)) :=
  pySetattr validate store p_name change.new

/-- The configuration of a `JSONInit` instance (source lines 141-150);
`param.String(default=None)` makes `target` and `json_file` optional. -/
structure JSONInit where
  varname : String := "PARAM_JSON_INIT"
  target : Option String := none
  json_file : Option String := none

/-- Observable outcome of one `JSONInit.__call__`: the attribute pairs
successfully applied (in order), the warnings emitted (in order), and the
exception that escaped the call, if any. -/
structure JIResult where
  applied : List (String × PyValue)
  warnings : List String
  err : Option PyErr
deriving DecidableEq

/-- Python truthiness of an optional string (`if self.json_file` …):
`None` and the empty string are falsy. -/
def truthyStr : Option String → Bool
  | none => false
  | some s => decide (s ≠ "")

/-- The per-pair loop of lines 182-186: each `set_param` outcome either
applies the pair or is caught as a `ValueError` and downgraded to a
warning, and the loop always continues. -/
def setParamLoop (setv : String → PyValue → Option String) :
    List (String × PyValue) → List (String × PyValue) × List String
  | [] => ([], [])
  | (n, v) :: rest =>
    let r := setParamLoop setv rest
    match setv n v with
    | none => ((n, v) :: r.1, r.2)
    | some msg => (r.1, msg :: r.2)

/-- `JSONInit.__call__` (source lines 153-186), parameterized by the module
namespace `globals` (global name references resolve against it), the
environment `env`, the outcome `fileLoad` of `json.load(open(...))` on a
path (`none` models any load or parse failure), the outcome `jloads` of
`json.loads` on a raw string, the target class name, and the target's
`set_param` contract `setv` (`some msg` models a `ValueError`). -/
def jsonInitBody (globals : List String) (cfg : JSONInit)
    (env : List (String × String))
    (fileLoad : String → Option PyValue)
    (jloads : String → Option PyValue)
    (clsName : String)
    (setv : String → PyValue → Option String) : JIResult :=
  let tgt := cfg.target.getD clsName
  if "os" ∉ globals then ⟨[], [], some (.nameError "os")⟩
  else
    let env_var : Option String := (env.find? fun q => decide (q.1 = cfg.varname)).map (·.2)
    if env_var = none ∧ cfg.json_file = none then ⟨[], [], none⟩
    else
      let branch : Except PyErr Bool :=
        if truthyStr cfg.json_file then .ok true
        else
          match env_var with
          | none => .error (.attributeError "endswith")
          | some s => .ok (s.endsWith ".json")
      match branch with
      | .error e => ⟨[], [], some e⟩
      | .ok useFile =>
        let specE : Except PyErr PyValue :=
          if useFile then
            let fname := if truthyStr cfg.json_file then cfg.json_file.getD "" else env_var.getD ""
            match (if "json" ∈ globals then fileLoad fname else none) with
            | some sp => .ok sp
            | none => .error (.unboundLocalError "spec")
          else
            if "json" ∉ globals then .error (.nameError "json")
            else
              match jloads (env_var.getD "") with
              | some sp => .ok sp
              | none => .error (.valueError "Expecting value")
        match specE with
        | .error e => ⟨[], [], some e⟩
        | .ok spec =>
          match spec with
          | .pydict entries =>
            let settings :=
              match pyDictGet? entries.entries tgt with
              | some v => v
              | none => spec
            match settings with
            | .pydict kvs =>
              let r := setParamLoop setv kvs.entries
              ⟨r.1, r.2, none⟩
            | _ => ⟨[], [], some (.attributeError "items")⟩
          | _ => ⟨[], ["JSON parameter specification must be a dictionary."], none⟩

/-- `JSONInit.__call__` as the module actually defines it: global names
resolve against the module's real namespace, which binds neither `os` nor
`json`. -/
def jsonInitCall (cfg : JSONInit) (env : List (String × String))
    (fileLoad : String → Option PyValue) (jloads : String → Option PyValue)
    (clsName : String) (setv : String → PyValue → Option String) : JIResult :=
  jsonInitBody moduleGlobals cfg env fileLoad jloads clsName setv

/-- The module namespace as it would be with the missing `import os, json`
added — used to exhibit how the call behaves once the unbound-name slip is
repaired. -/
def repairedGlobals : List String :=
  "os" :: "json" :: moduleGlobals

/-- The display order established by source lines 105-110: ascending
precedence key; among equal keys, ascending attribute name (the group-wise
tuple sort of line 109). -/
def lexLe (dp : ℚ) (a b : String × PParam) : Prop :=
  key_fn dp a < key_fn dp b ∨ (key_fn dp a = key_fn dp b ∧ strLe a.1 b.1 = true)

instance lexLeDec (dp : ℚ) : DecidableRel (lexLe dp) := fun a b => by
  unfold lexLe
  infer_instance

/-- Fixture: a target with an enumerated-range attribute `level` whose
range maps `Low` to `1` and `High` to `2`, current value `2`. -/
def objEnum : TargetObject :=
  [("name", ⟨.string, .pystr "E", none, none, none⟩),
   ("level", ⟨.selector, .pyint 2, none,
     some [("Low", .pyint 1), ("High", .pyint 2)], none⟩)]

/-- Fixture: a target whose enumerated range maps two labels to the same
underlying value `1` (label `Low` inserted first, `High` second). -/
def objDupVals : TargetObject :=
  [("sel", ⟨.selector, .pyint 1, none,
     some [("Low", .pyint 1), ("High", .pyint 1)], none⟩)]

/-- Fixture: one attribute of an unlisted kind (`String`) and one of a
listed kind (`Boolean`). -/
def objKinds : TargetObject :=
  [("s", ⟨.string, .pystr "v", none, none, none⟩),
   ("b", ⟨.boolean, .pybool true, none, none, none⟩)]

/-- Fixture: a range-exposing attribute whose exact kind `FileSelector`
(the kind the source itself references on line 80) has no `_mapping`
entry, with a non-mapping current value. -/
def objFileSel : TargetObject :=
  [("f", ⟨.fileSelector, .pystr "a.txt", none,
     some [("a.txt", .pystr "a.txt")], none⟩)]

/-- Fixture: a small property sheet exercising ordering, threshold
filtering and the `name` heading. -/
def psDemo : TargetObject :=
  [("name", ⟨.string, .pystr "Obj", none, none, none⟩),
   ("zeta", ⟨.boolean, .pybool true, some 1, none, none⟩),
   ("alpha", ⟨.boolean, .pybool true, some 1, none, none⟩),
   ("beta", ⟨.boolean, .pybool false, some 0, none, none⟩),
   ("hidden", ⟨.boolean, .pybool false, some (-5), none, none⟩)]

/-- Fixture: the `name` attribute carries no declared precedence, and a
second attribute does. -/
def psNoPrec : TargetObject :=
  [("name", ⟨.string, .pystr "X", none, none, none⟩),
   ("x", ⟨.boolean, .pybool true, some 1, none, none⟩)]

/-! ## Order properties of the embedded Python string comparison -/

theorem charListLe_refl : ∀ xs : List Char, charListLe xs xs = true
  | [] => rfl
  | c :: cs => by simp [charListLe, charListLe_refl cs]

theorem charListLe_total : ∀ xs ys : List Char,
    charListLe xs ys = true ∨ charListLe ys xs = true
  | [], _ => Or.inl rfl
  | _ :: _, [] => Or.inr rfl
  | c :: cs, d :: ds => by
    by_cases h1 : c.toNat < d.toNat
    · left
      simp [charListLe, h1]
    · by_cases h2 : d.toNat < c.toNat
      · right
        simp [charListLe, h2]
      · rcases charListLe_total cs ds with h | h
        · left
          simp [charListLe, h1, h2, h]
        · right
          simp [charListLe, h1, h2, h]

theorem charListLe_trans : ∀ (xs ys zs : List Char),
    charListLe xs ys = true → charListLe ys zs = true → charListLe xs zs = true
  | [], _, _, _, _ => rfl
  | _ :: _, [], _, h1, _ => by simp [charListLe] at h1
  | _ :: _, _ :: _, [], _, h2 => by simp [charListLe] at h2
  | x :: xs, y :: ys, z :: zs, h1, h2 => by
    simp only [charListLe] at h1 h2 ⊢
    rcases Nat.lt_trichotomy x.toNat y.toNat with hxy | hxy | hxy
    · rcases Nat.lt_trichotomy y.toNat z.toNat with hyz | hyz | hyz
      · rw [if_pos (show x.toNat < z.toNat by omega)]
      · rw [if_pos (show x.toNat < z.toNat by omega)]
      · rw [if_neg (show ¬ y.toNat < z.toNat by omega),
          if_pos (show z.toNat < y.toNat by omega)] at h2
        exact absurd h2 (by simp)
    · rcases Nat.lt_trichotomy y.toNat z.toNat with hyz | hyz | hyz
      · rw [if_pos (show x.toNat < z.toNat by omega)]
      · rw [if_neg (show ¬ x.toNat < y.toNat by omega),
          if_neg (show ¬ y.toNat < x.toNat by omega)] at h1
        rw [if_neg (show ¬ y.toNat < z.toNat by omega),
          if_neg (show ¬ z.toNat < y.toNat by omega)] at h2
        rw [if_neg (show ¬ x.toNat < z.toNat by omega),
          if_neg (show ¬ z.toNat < x.toNat by omega)]
        exact charListLe_trans xs ys zs h1 h2
      · rw [if_neg (show ¬ y.toNat < z.toNat by omega),
          if_pos (show z.toNat < y.toNat by omega)] at h2
        exact absurd h2 (by simp)
    · rw [if_neg (show ¬ x.toNat < y.toNat by omega),
        if_pos (show y.toNat < x.toNat by omega)] at h1
      exact absurd h1 (by simp)

theorem strLe_total (a b : String) : strLe a b = true ∨ strLe b a = true :=
  charListLe_total a.data b.data

theorem strLe_trans {a b c : String} (h1 : strLe a b = true) (h2 : strLe b c = true) :
    strLe a c = true :=
  charListLe_trans a.data b.data c.data h1 h2

/-! ## Python dict semantics -/

theorem pyDictGet?_pyDictInsert {κ ω : Type} [DecidableEq κ]
    (d : List (κ × ω)) (a : κ) (b : ω) (k : κ) :
    pyDictGet? (pyDictInsert d a b) k = if k = a then some b else pyDictGet? d k := by
  induction d with
  | nil =>
    by_cases h : k = a
    · subst h
      simp [pyDictInsert, pyDictGet?, List.find?]
    · simp [pyDictInsert, pyDictGet?, List.find?, h, Ne.symm h]
  | cons q t ih =>
    by_cases hqa : q.1 = a
    · by_cases hk : k = a
      · subst hk
        simp [pyDictInsert, pyDictGet?, List.find?, hqa]
      · simp [pyDictInsert, pyDictGet?, List.find?, hqa, hk, Ne.symm hk,
          fun h => hk ((hqa.symm.trans h).symm ▸ rfl)]
    · by_cases hqk : q.1 = k
      · have hk : ¬ k = a := fun h => hqa (hqk.trans h)
        simp [pyDictInsert, pyDictGet?, List.find?, hqa, hqk, hk]
      · simp only [pyDictInsert, if_neg hqa]
        simp only [pyDictGet?] at ih
        simp [pyDictGet?, List.find?, hqk, ih]

theorem pyDictGet?_foldl {κ ω : Type} [DecidableEq κ]
    (pairs : List (κ × ω)) (d : List (κ × ω)) (k : κ) :
    pyDictGet? (pairs.foldl (fun d q => pyDictInsert d q.1 q.2) d) k =
      match pairs.reverse.find? (fun q => decide (q.1 = k)) with
      | some q => some q.2
      | none => pyDictGet? d k := by
  induction pairs generalizing d with
  | nil => simp
  | cons a rest ih =>
    rw [List.foldl_cons, ih, List.reverse_cons, List.find?_append]
    cases hf : rest.reverse.find? (fun q => decide (q.1 = k)) with
    | some q => simp [Option.or]
    | none =>
      simp only [Option.or, pyDictGet?_pyDictInsert]
      by_cases h : a.1 = k
      · simp [List.find?, h, eq_comm]
      · have h' : ¬ k = a.1 := fun hh => h hh.symm
        simp [List.find?, h, h']

/-- The value-to-label reverse lookup of source line 77
(`lookup = {v: k for k, v in options}`): subscripting it returns the label
of the **last** `(label, value)` pair carrying that value, because later
comprehension iterations overwrite earlier ones. -/
theorem pyDictGet?_pyDictOf {κ ω : Type} [DecidableEq κ]
    (pairs : List (κ × ω)) (k : κ) :
    pyDictGet? (pyDictOf pairs) k =
      (pairs.reverse.find? (fun q => decide (q.1 = k))).map (·.2) := by
  rw [pyDictOf, pyDictGet?_foldl]
  cases hf : pairs.reverse.find? (fun q => decide (q.1 = k)) with
  | some q => simp
  | none => simp [pyDictGet?]

/-! ## Permutation and membership facts about the assembler pipeline -/

theorem sorted_precedence_perm (dp : ℚ) (ps : List (String × PParam)) :
    List.Perm (sorted_precedence dp ps) ps :=
  List.perm_insertionSort _ ps

theorem filteredParams_sublist (dp dt : ℚ) (ps : List (String × PParam)) :
    List.Sublist (filteredParams dp dt ps) (sorted_precedence dp ps) :=
  List.filter_sublist _

theorem orderedPairs_perm (dp dt : ℚ) (ps : List (String × PParam)) :
    List.Perm (orderedPairs dp dt ps) (filteredParams dp dt ps) := by
  have h : List.Forall₂ List.Perm
      ((precedenceGroups dp dt ps).map (List.insertionSort fun a b => strLe a.1 b.1 = true))
      (precedenceGroups dp dt ps) := by
    induction precedenceGroups dp dt ps with
    | nil => exact .nil
    | cons g gs ih => exact .cons (List.perm_insertionSort _ g) ih
  have h2 : List.Perm (orderedPairs dp dt ps) (precedenceGroups dp dt ps).flatten :=
    List.Perm.flatten_congr h
  rw [precedenceGroups, List.flatten_splitBy] at h2
  exact h2

theorem mem_orderedPairs (dp dt : ℚ) (ps : List (String × PParam)) (x : String × PParam) :
    x ∈ orderedPairs dp dt ps ↔
      x ∈ ps ∧ (x.2.precedence = none ∨ ∃ q, x.2.precedence = some q ∧ dt ≤ q) := by
  rw [(orderedPairs_perm dp dt ps).mem_iff, filteredParams, List.mem_filter,
    (sorted_precedence_perm dp ps).mem_iff]
  apply and_congr_right
  intro _
  cases hp : x.2.precedence with
  | none => simp
  | some q => simp [ge_iff_le]

theorem nodup_ordered_names (dp dt : ℚ) (ps : List (String × PParam))
    (h : (ps.map Prod.fst).Nodup) : ((orderedPairs dp dt ps).map Prod.fst).Nodup := by
  have h1 : List.Perm ((sorted_precedence dp ps).map Prod.fst) (ps.map Prod.fst) :=
    (sorted_precedence_perm dp ps).map Prod.fst
  have h2 : List.Sublist ((filteredParams dp dt ps).map Prod.fst)
      ((sorted_precedence dp ps).map Prod.fst) :=
    (filteredParams_sublist dp dt ps).map Prod.fst
  have h3 : List.Perm ((orderedPairs dp dt ps).map Prod.fst)
      ((filteredParams dp dt ps).map Prod.fst) :=
    (orderedPairs_perm dp dt ps).map Prod.fst
  exact h3.nodup_iff.mpr (h2.nodup (h1.nodup_iff.mpr h))

theorem assoc_unique {ps : List (String × PParam)} (h : (ps.map Prod.fst).Nodup)
    {n : String} {p pq : PParam} (h1 : (n, p) ∈ ps) (h2 : (n, pq) ∈ ps) : p = pq := by
  induction ps with
  | nil => cases h1
  | cons q t ih =>
    have hn : q.1 ∉ t.map Prod.fst := by
      rw [List.map_cons, List.nodup_cons] at h
      exact h.1
    have ht : (t.map Prod.fst).Nodup := by
      rw [List.map_cons, List.nodup_cons] at h
      exact h.2
    rcases List.mem_cons.mp h1 with h1h | h1t
    · rcases List.mem_cons.mp h2 with h2h | h2t
      · exact congrArg Prod.snd (h1h.trans h2h.symm)
      · exfalso
        apply hn
        rw [(congrArg Prod.fst h1h).symm]
        simpa using List.mem_map_of_mem Prod.fst h2t
    · rcases List.mem_cons.mp h2 with h2h | h2t
      · exfalso
        apply hn
        rw [(congrArg Prod.fst h2h).symm]
        simpa using List.mem_map_of_mem Prod.fst h1t
      · exact ih ht h1t h2t

/-! ## Sortedness of the assembler pipeline -/

theorem chain'_key_eq_head {α : Type} (key : α → ℚ) :
    ∀ (x : α) (t : List α), List.Chain' (fun a b => key a = key b) (x :: t) →
      ∀ a ∈ x :: t, key a = key x := by
  intro x t
  induction t generalizing x with
  | nil =>
    intro _ a ha
    rw [List.mem_singleton.mp ha]
  | cons y t ih =>
    intro hc a ha
    rw [List.chain'_cons] at hc
    rcases List.mem_cons.mp ha with rfl | hat
    · rfl
    · exact (ih y hc.2 a hat).trans hc.1.symm

theorem chain'_key_eq_all {α : Type} (key : α → ℚ) {g : List α}
    (hc : List.Chain' (fun a b => key a = key b) g) :
    ∀ a ∈ g, ∀ b ∈ g, key a = key b := by
  cases g with
  | nil =>
    intro a ha
    cases ha
  | cons x t =>
    intro a ha b hb
    exact (chain'_key_eq_head key x t hc a ha).trans (chain'_key_eq_head key x t hc b hb).symm

/-- Within one group produced by the line-108 `groupby`, all elements share
one precedence key. -/
theorem splitBy_key_eq {α : Type} (key : α → ℚ) {l g : List α}
    (hg : g ∈ l.splitBy fun a b => decide (key a = key b)) :
    ∀ a ∈ g, ∀ b ∈ g, key a = key b := by
  have hc := List.chain'_of_mem_splitBy hg
  exact chain'_key_eq_all key (hc.imp fun a b h => of_decide_eq_true h)

/-- Nonempty equal-key groups cut from a key-sorted list, with unequal keys
at each group boundary, are strictly increasing in key, groupwise. -/
theorem splitBy_pairwise_lt {α : Type} (key : α → ℚ) :
    ∀ (G : List (List α)),
      (∀ g ∈ G, ∀ a ∈ g, ∀ b ∈ g, key a = key b) →
      List.Pairwise (fun g₁ g₂ => ∀ a ∈ g₁, ∀ b ∈ g₂, key a ≤ key b) G →
      List.Chain' (fun g₁ g₂ =>
        ∃ h1 h2, decide (key (g₁.getLast h1) = key (g₂.head h2)) = false) G →
      List.Pairwise (fun g₁ g₂ => ∀ a ∈ g₁, ∀ b ∈ g₂, key a < key b) G := by
  intro G
  induction G with
  | nil =>
    intro _ _ _
    exact List.Pairwise.nil
  | cons g gs ih =>
    intro heq hcross hb
    rw [List.pairwise_cons] at hcross ⊢
    refine ⟨?_, ih (fun g' hg' => heq g' (List.mem_cons_of_mem _ hg')) hcross.2 hb.tail⟩
    cases gs with
    | nil =>
      intro g₂ hg₂
      cases hg₂
    | cons gOne rest =>
      rw [List.chain'_cons] at hb
      obtain ⟨hL, hH, hne⟩ := hb.1
      have hne' : key (List.getLast g hL) ≠ key (List.head gOne hH) := of_decide_eq_false hne
      have hle : key (List.getLast g hL) ≤ key (List.head gOne hH) :=
        hcross.1 gOne (List.mem_cons_self _ _) _ (List.getLast_mem hL) _ (List.head_mem hH)
      have hlt : key (List.getLast g hL) < key (List.head gOne hH) := lt_of_le_of_ne hle hne'
      intro g₂ hg₂ a ha b hbm
      have hka : key a = key (List.getLast g hL) :=
        heq g (List.mem_cons_self _ _) a ha _ (List.getLast_mem hL)
      rcases List.mem_cons.mp hg₂ with rfl | hg₂r
      · have hkb : key (List.head g₂ hH) = key b :=
          heq g₂ (List.mem_cons_of_mem _ (List.mem_cons_self _ _)) _ (List.head_mem hH) b hbm
        rw [hka, ← hkb]
        exact hlt
      · have hcr : ∀ x ∈ gOne, ∀ y ∈ g₂, key x ≤ key y :=
          (List.pairwise_cons.mp hcross.2).1 g₂ hg₂r
        have hle2 : key (List.head gOne hH) ≤ key b := hcr _ (List.head_mem hH) b hbm
        rw [hka]
        exact lt_of_lt_of_le hlt hle2

theorem filteredParams_pairwise_le (dp dt : ℚ) (ps : List (String × PParam)) :
    List.Pairwise (fun a b => key_fn dp a ≤ key_fn dp b) (filteredParams dp dt ps) := by
  apply List.Pairwise.sublist (filteredParams_sublist dp dt ps)
  haveI : IsTotal (String × PParam) (fun a b => key_fn dp a ≤ key_fn dp b) :=
    ⟨fun a b => le_total _ _⟩
  haveI : IsTrans (String × PParam) (fun a b => key_fn dp a ≤ key_fn dp b) :=
    ⟨fun _ _ _ h1 h2 => le_trans h1 h2⟩
  exact List.sorted_insertionSort _ ps

/-- The `(name, parameter)` pairs underlying the display order are sorted:
ascending precedence key, and ascending name among equal keys. -/
theorem orderedPairs_pairwise (dp dt : ℚ) (ps : List (String × PParam)) :
    List.Pairwise (lexLe dp) (orderedPairs dp dt ps) := by
  have hflat : ((filteredParams dp dt ps).splitBy
      fun a b => decide (key_fn dp a = key_fn dp b)).flatten = filteredParams dp dt ps :=
    List.flatten_splitBy _ _
  have hsplit := List.pairwise_flatten.mp
    (show List.Pairwise (fun a b => key_fn dp a ≤ key_fn dp b)
        ((filteredParams dp dt ps).splitBy
          fun a b => decide (key_fn dp a = key_fn dp b)).flatten by
      rw [hflat]
      exact filteredParams_pairwise_le dp dt ps)
  have hbound := List.chain'_getLast_head_splitBy
    (fun a b => decide (key_fn dp a = key_fn dp b)) (filteredParams dp dt ps)
  have hlt := splitBy_pairwise_lt (key_fn dp) _
    (fun g hg => splitBy_key_eq (key_fn dp) hg) hsplit.2 hbound
  rw [orderedPairs, sorted_groups]
  apply List.pairwise_flatten.mpr
  constructor
  · intro gS hgS
    obtain ⟨g, hg, rfl⟩ := List.mem_map.mp hgS
    rw [precedenceGroups] at hg
    have hkeys : ∀ a ∈ g, ∀ b ∈ g, key_fn dp a = key_fn dp b :=
      splitBy_key_eq (key_fn dp) hg
    haveI : IsTotal (String × PParam) (fun a b => strLe a.1 b.1 = true) :=
      ⟨fun a b => strLe_total a.1 b.1⟩
    haveI : IsTrans (String × PParam) (fun a b => strLe a.1 b.1 = true) :=
      ⟨fun _ _ _ h1 h2 => strLe_trans h1 h2⟩
    have hs : List.Pairwise (fun a b => strLe a.1 b.1 = true)
        (List.insertionSort (fun a b => strLe a.1 b.1 = true) g) :=
      List.sorted_insertionSort _ g
    refine hs.imp_of_mem ?_
    intro a b ha hb hr
    exact Or.inr ⟨hkeys a ((List.mem_insertionSort _).mp ha) b
      ((List.mem_insertionSort _).mp hb), hr⟩
  · rw [List.pairwise_map]
    rw [precedenceGroups]
    refine hlt.imp ?_
    intro g₁ g₂ h a ha b hb
    exact Or.inl (h a ((List.mem_insertionSort _).mp ha) b ((List.mem_insertionSort _).mp hb))

/-! ## Unfolding helpers for the widget factory and assembler -/

theorem widgetImpl_ok_fields {nObjs : Option (List (String × PyValue) → List (String × PyValue))}
    {lf : Option (String → String)} {obj : TargetObject} {n : String} {w : Widget}
    (h : widgetImpl nObjs lf obj n = .ok w) :
    w.bound = n ∧ ∃ p, paramsGet? obj n = some p ∧ pp_mapping p.kind = some w.widget_class := by
  unfold widgetImpl at h
  cases hp : paramsGet? obj n with
  | none =>
    simp only [hp] at h
    cases h
  | some p =>
    simp only [hp] at h
    cases hm : pp_mapping p.kind with
    | none =>
      simp only [hm] at h
      cases h
    | some wc =>
      simp only [hm] at h
      split at h
      · cases h
      · injection h with h2
        subst h2
        exact ⟨rfl, p, rfl, hm⟩

theorem popName_ok {l l' : List String} (h : popName l = .ok l') :
    l' = l.erase "name" ∧ "name" ∈ l := by
  unfold popName at h
  split at h
  · injection h with h2
    exact ⟨h2.symm, by assumption⟩
  · cases h

theorem widgetList_mem {lf : Option (String → String)} {obj : TargetObject}
    {l : List String} {ws : List Widget} (h : widgetList lf obj l = .ok ws) :
    ∀ w ∈ ws, ∃ n ∈ l, widget lf obj n = .ok w := by
  induction l generalizing ws with
  | nil =>
    unfold widgetList at h
    injection h with h2
    subst h2
    intro w hw
    cases hw
  | cons n ns ih =>
    unfold widgetList at h
    cases hw : widget lf obj n with
    | error e =>
      simp only [hw] at h
      cases h
    | ok w0 =>
      simp only [hw] at h
      cases hr : widgetList lf obj ns with
      | error e =>
        simp only [hr] at h
        cases h
      | ok ws0 =>
        simp only [hr] at h
        injection h with h2
        subst h2
        intro w hwm
        rcases List.mem_cons.mp hwm with rfl | hmem
        · exact ⟨n, List.mem_cons_self _ _, hw⟩
        · obtain ⟨m, hm, hwm2⟩ := ih hr w hmem
          exact ⟨m, List.mem_cons_of_mem _ hm, hwm2⟩

/-! ## Claim theorems -/

/-- C1: the claim says `JSONInit.__call__` never raises — every failure
path degrades to a warning.  The code contradicts this: (i) every call
raises `NameError` at `os.environ.get` (line 161) because the module never
imports `os`, applying no attribute and emitting no warning; (ii) even with
the missing imports repaired, a file-load failure raises
`UnboundLocalError` because the bare `except:` handler (line 169) formats
the local `spec` before it was ever assigned, instead of warning. -/
theorem C1_jsoninit_call_raises :
    jsonInitCall ⟨"PARAM_JSON_INIT", none, none⟩ [("PARAM_JSON_INIT", "x")]
        (fun _ => none) (fun _ => some (.pydict (.cons "p1" (.pyint 5) .nil)))
        "MyClass" (fun _ _ => none) =
      ⟨[], [], some (.nameError "os")⟩ ∧
    jsonInitBody repairedGlobals ⟨"PARAM_JSON_INIT", none, some "missing.json"⟩ []
        (fun _ => none) (fun _ => none) "MyClass" (fun _ _ => none) =
      ⟨[], [], some (.unboundLocalError "spec")⟩ := by
  exact ⟨by decide, by decide⟩

/-- C2: the claim says that with the environment variable unset and no
`json_file` the call is a complete no-op.  The code instead raises
`NameError` at line 161 before reaching the silent-return of line 162; the
no-op behaviour the claim (and line 162) intends is exhibited by the same
call under the repaired module namespace. -/
theorem C2_unset_env_raises :
    jsonInitCall ⟨"PARAM_JSON_INIT", none, none⟩ [] (fun _ => none) (fun _ => none)
        "MyClass" (fun _ _ => none) = ⟨[], [], some (.nameError "os")⟩ ∧
    jsonInitBody repairedGlobals ⟨"PARAM_JSON_INIT", none, none⟩ [] (fun _ => none)
        (fun _ => none) "MyClass" (fun _ _ => none) = ⟨[], [], none⟩ := by
  exact ⟨by decide, by decide⟩

/-- C3 (amended): every invocation of `JSONInit.__call__` stops with an
unbound-name error (`NameError` for `os`, raised by line 161) before any
attribute is applied or warning emitted; and `widget` fails with an
unbound-name error (`NameError` for `named_objs`, line 75) for every
attribute whose kind has a widget-mapping entry and which exposes an
enumerated range while its current value is not a mapping.  The original
claim quantified over every range-exposing attribute, but an attribute of
an unlisted kind fails one line earlier, at the line-64 mapping lookup,
with a `KeyError` instead (see the counterexample below). -/
theorem C3_unbound_name_errors :
    (∀ (cfg : JSONInit) (env : List (String × String))
        (fileLoad jloads : String → Option PyValue) (clsName : String)
        (setv : String → PyValue → Option String),
      jsonInitCall cfg env fileLoad jloads clsName setv =
        ⟨[], [], some (.nameError "os")⟩) ∧
    (∀ (lf : Option (String → String)) (obj : TargetObject) (n : String)
        (p : PParam) (items : List (String × PyValue)),
      paramsGet? obj n = some p →
      p.get_range = some items →
      p.value.isDict = false →
      (pp_mapping p.kind).isSome →
      widget lf obj n = .error (.nameError "named_objs")) := by
  constructor
  · intro cfg env fileLoad jloads clsName setv
    have hos : "os" ∉ moduleGlobals := by decide
    simp [jsonInitCall, jsonInitBody, hos]
  · intro lf obj n p items hp hr hd hm
    obtain ⟨wc, hwc⟩ := Option.isSome_iff_exists.mp hm
    have hno : namedObjsResolve moduleGlobals = none := rfl
    unfold widget widgetImpl
    simp [hp, hwc, hr, hd, hno, optionsBlock]

/-- Closed instance of C3: the `JSONInit` default configuration raises the
`os` `NameError`, and the enumerated-range attribute of `objEnum` makes
`widget` raise the `named_objs` `NameError`. -/
theorem C3_witness :
    jsonInitCall ⟨"PARAM_JSON_INIT", none, none⟩ [] (fun _ => none) (fun _ => none)
        "P" (fun _ _ => none) = ⟨[], [], some (.nameError "os")⟩ ∧
    widget none objEnum "level" = .error (.nameError "named_objs") :=
  ⟨C3_unbound_name_errors.1 ⟨"PARAM_JSON_INIT", none, none⟩ [] (fun _ => none)
      (fun _ => none) "P" (fun _ _ => none),
    C3_unbound_name_errors.2 none objEnum "level"
      ⟨.selector, .pyint 2, none, some [("Low", .pyint 1), ("High", .pyint 2)], none⟩
      [("Low", .pyint 1), ("High", .pyint 2)] (by decide) (by decide) (by decide) (by decide)⟩

/-- C3 counterexample to the original universal: the `FileSelector`-kind
attribute of `objFileSel` exposes an enumerated range and its current
value is not a mapping, yet `widget` fails with the line-64 lookup
`KeyError`, not with an unbound-name error. -/
theorem C3_counterexample :
    paramsGet? objFileSel "f" =
      some ⟨.fileSelector, .pystr "a.txt", none,
        some [("a.txt", .pystr "a.txt")], none⟩ ∧
    (PyValue.pystr "a.txt").isDict = false ∧
    widget none objFileSel "f" = .error (.keyError "FileSelector") ∧
    (Except.error (PyErr.keyError "FileSelector") : Except PyErr Widget) ≠
      .error (.nameError "named_objs") := by
  exact ⟨by decide, by decide, by decide, by decide⟩

/-- C4 counterexample: in `psNoPrec` the `name` attribute has no declared
precedence, yet it is absent from the displayed attribute list (it is
popped on line 113), refuting the claim that an attribute with no declared
precedence is always included for every attribute of the target. -/
theorem C4_counterexample :
    ("name", (⟨.string, .pystr "X", none, none, none⟩ : PParam)) ∈ psNoPrec ∧
    (⟨.string, .pystr "X", none, none, none⟩ : PParam).precedence = none ∧
    popName (ordered_params 1 0 psNoPrec) = .ok ["x"] ∧
    "name" ∉ (["x"] : List String) := by
  exact ⟨by decide, by decide, by decide, by decide⟩

/-- C4 (amended): for every attribute other than the special `name`
attribute, the displayed list excludes it exactly when its declared
precedence is strictly below `display_threshold`; an attribute with no
declared precedence is always included and its sort key is
`default_precedence`. -/
theorem C4_amended (dp dt : ℚ) (ps : TargetObject) (n : String) (p : PParam)
    (lr : List String)
    (hnd : (ps.map Prod.fst).Nodup) (hmem : (n, p) ∈ ps) (hne : n ≠ "name")
    (hpop : popName (ordered_params dp dt ps) = .ok lr) :
    (n ∈ lr ↔ (p.precedence = none ∨ ∃ q, p.precedence = some q ∧ dt ≤ q)) ∧
    (p.precedence = none → key_fn dp (n, p) = dp) := by
  obtain ⟨hlr, _⟩ := popName_ok hpop
  subst hlr
  constructor
  · rw [List.mem_erase_of_ne hne, ordered_params]
    constructor
    · intro hmm
      obtain ⟨x, hx, hfst⟩ := List.mem_map.mp hmm
      obtain ⟨hxps, hcond⟩ := (mem_orderedPairs dp dt ps x).mp hx
      have hxps2 : (n, x.2) ∈ ps := by
        rw [← hfst]
        exact hxps
      have hx2 : x.2 = p := assoc_unique hnd hxps2 hmem
      rw [← hx2]
      exact hcond
    · intro hcond
      exact List.mem_map.mpr ⟨(n, p),
        (mem_orderedPairs dp dt ps (n, p)).mpr ⟨hmem, hcond⟩, rfl⟩
  · intro hnone
    simp [key_fn, hnone]

/-- Closed instance of the amended C4 on `psDemo`: `alpha` (declared
precedence 1, threshold 0) is displayed, and the `name` key default is
reported. -/
theorem C4_witness :
    (psDemo.map Prod.fst).Nodup ∧
    (("alpha" ∈ ["beta", "alpha", "zeta"]) ↔
      ((⟨.boolean, .pybool true, some 1, none, none⟩ : PParam).precedence = none ∨
        ∃ q, (⟨.boolean, .pybool true, some 1, none, none⟩ : PParam).precedence = some q ∧
          (0 : ℚ) ≤ q)) :=
  ⟨by decide,
    (C4_amended 2 0 psDemo "alpha" ⟨.boolean, .pybool true, some 1, none, none⟩
      ["beta", "alpha", "zeta"] (by decide) (by decide) (by decide) (by decide)).1⟩

/-- C5: the pairs underlying the displayed order are sorted by ascending
precedence key with the ascending-name tie-break among equal keys
(`lexLe`); the name list the controls are built from is their first
projection; and the post-pop list is a sublist of it, hence equally
sorted.  The `Nodup` hypothesis records that `params().items()` yields
distinct names (Python would otherwise attempt to order two parameter
objects, a `TypeError`). -/
theorem C5_display_order (dp dt : ℚ) (ps : TargetObject)
    (_hnd : (ps.map Prod.fst).Nodup) :
    List.Pairwise (lexLe dp) (orderedPairs dp dt ps) ∧
    ordered_params dp dt ps = (orderedPairs dp dt ps).map Prod.fst ∧
    (∀ lr, popName (ordered_params dp dt ps) = .ok lr →
      List.Sublist lr (ordered_params dp dt ps)) := by
  refine ⟨orderedPairs_pairwise dp dt ps, rfl, ?_⟩
  intro lr h
  rw [(popName_ok h).1]
  exact List.erase_sublist _ _

/-- Closed instance of C5 on `psDemo` with `default_precedence = 2` and
`display_threshold = 0`. -/
theorem C5_witness :
    (psDemo.map Prod.fst).Nodup ∧
    List.Pairwise (lexLe 2) (orderedPairs 2 0 psDemo) ∧
    List.Sublist ["beta", "alpha", "zeta"] (ordered_params 2 0 psDemo) :=
  ⟨by decide, (C5_display_order 2 0 psDemo (by decide)).1,
    (C5_display_order 2 0 psDemo (by decide)).2.2 ["beta", "alpha", "zeta"] (by decide)⟩

/-- C6: when `_get_widgets` succeeds, its result is exactly one static
heading carrying the bolded name of the target object, followed by
per-attribute controls none of which is bound to the `name` attribute. -/
theorem C6_heading_and_no_name_control
    (lf : Option (String → String)) (obj : TargetObject) (dp dt : ℚ)
    (ws : List PanelItem) (pn : PParam)
    (hnd : (obj.map Prod.fst).Nodup)
    (hname : paramsGet? obj "name" = some pn)
    (h : get_widgets lf obj dp dt = .ok ws) :
    ∃ rest, ws = .divItem ("<b>" ++ pyStr pn.value ++ "</b>") :: rest ∧
      ∀ item ∈ rest, ∃ w, item = .widgetItem w ∧ w.bound ≠ "name" := by
  unfold get_widgets at h
  cases hpop : popName (ordered_params dp dt obj) with
  | error e =>
    simp only [hpop] at h
    cases h
  | ok lr =>
    simp only [hpop] at h
    cases hwl : widgetList lf obj lr with
    | error e =>
      simp only [hwl] at h
      cases h
    | ok ws0 =>
      simp only [hwl] at h
      injection h with h2
      subst h2
      refine ⟨ws0.map .widgetItem, ?_, ?_⟩
      · simp [objectNameStr, hname]
      · intro item hit
        obtain ⟨w, hw, rfl⟩ := List.mem_map.mp hit
        refine ⟨w, rfl, ?_⟩
        obtain ⟨m, hm, hwid⟩ := widgetList_mem hwl w hw
        have hb : w.bound = m := (widgetImpl_ok_fields hwid).1
        rw [hb]
        obtain ⟨hlr, _⟩ := popName_ok hpop
        subst hlr
        have hnodup : (ordered_params dp dt obj).Nodup :=
          nodup_ordered_names dp dt obj hnd
        intro heqm
        exact hnodup.not_mem_erase (heqm ▸ hm)

/-- Closed instance of C6 on `psDemo`: the heading carries `Obj` in bold
and the three controls are bound to `beta`, `alpha` and `zeta`. -/
theorem C6_witness :
    (psDemo.map Prod.fst).Nodup ∧
    get_widgets none psDemo 2 0 =
      .ok [.divItem "<b>Obj</b>",
        .widgetItem ⟨.checkbox, .pybool false, "beta", none, none, none, "beta", none⟩,
        .widgetItem ⟨.checkbox, .pybool true, "alpha", none, none, none, "alpha", none⟩,
        .widgetItem ⟨.checkbox, .pybool true, "zeta", none, none, none, "zeta", none⟩] ∧
    ∃ rest,
      ([.divItem "<b>Obj</b>",
        .widgetItem ⟨.checkbox, .pybool false, "beta", none, none, none, "beta", none⟩,
        .widgetItem ⟨.checkbox, .pybool true, "alpha", none, none, none, "alpha", none⟩,
        .widgetItem ⟨.checkbox, .pybool true, "zeta", none, none, none, "zeta", none⟩] :
          List PanelItem) =
        .divItem ("<b>" ++ pyStr (.pystr "Obj") ++ "</b>") :: rest ∧
      ∀ item ∈ rest, ∃ w, item = .widgetItem w ∧ w.bound ≠ "name" :=
  ⟨by decide, by decide,
    C6_heading_and_no_name_control none psDemo 2 0 _
      ⟨.string, .pystr "Obj", none, none, none⟩ (by decide) (by decide) (by decide)⟩

/-- C7: the claim describes the enumerated-range control (value `High`,
options `[(Low, Low), (High, High)]`) that lines 74-87 set out to build,
but the module never binds the helper `named_objs` they call, so at this
exact input `widget` raises `NameError` at line 75 and no control is
produced.  The claim matches the clear intent: with the helper supplied
from the spec (`widgetRepaired`, the analogue of `repairedGlobals` for
the missing imports) the call returns exactly the claimed control. -/
theorem C7_range_widget_never_built :
    widget none objEnum "level" = .error (.nameError "named_objs") ∧
    widgetRepaired none objEnum "level" =
      .ok ⟨.select, .pystr "High", "level", some [("Low", "Low"), ("High", "High")],
        none, none, "level", some [("Low", .pyint 1), ("High", .pyint 2)]⟩ := by
  exact ⟨by decide, by decide⟩

/-- C8: at the duplicate-value fixture the code resolves no duplicate at
all — `widget` raises `NameError` for `named_objs` at line 75 before the
line-77 reverse lookup exists.  The second conjunct evaluates the lookup
that line 77 spells out (`pyDictOf` over the value-label swaps of the
range pairs `[(Low, 1), (High, 1)]`): a duplicated value resolves to the
**last** inserted label, not the first one the claim states, and the
repaired factory accordingly displays `High`. -/
theorem C8_lookup_never_built :
    widget none objDupVals "sel" = .error (.nameError "named_objs") ∧
    pyDictGet? (pyDictOf [((PyValue.pyint 1 : PyValue), "Low"), (.pyint 1, "High")])
        (.pyint 1) = some "High" ∧
    (widgetRepaired none objDupVals "sel").map (fun w => w.value) = .ok (.pystr "High") := by
  exact ⟨by decide, by decide, by decide⟩

/-- C9: the Change Relay forwards exactly `change.new` to the external
attribute-set operation: on acceptance the named attribute holds the very
value from the event and no other attribute changes; on rejection the
error propagates uncaught. -/
theorem C9_apply_change_verbatim
    (validate : String → PyValue → Option String)
    (store : List (String × PyValue)) (p_name : String) (change : ChangeEvent) :
    (validate p_name change.new = none →
      apply_change validate store p_name change =
          .ok (pyDictInsert store p_name change.new) ∧
        pyDictGet? (pyDictInsert store p_name change.new) p_name = some change.new ∧
        ∀ m, m ≠ p_name →
          pyDictGet? (pyDictInsert store p_name change.new) m = pyDictGet? store m) ∧
    (∀ msg, validate p_name change.new = some msg →
      apply_change validate store p_name change = .error msg) := by
  constructor
  · intro hv
    refine ⟨by simp [apply_change, pySetattr, hv], ?_, ?_⟩
    · rw [pyDictGet?_pyDictInsert]
      simp
    · intro m hm
      rw [pyDictGet?_pyDictInsert]
      simp [hm]
  · intro msg hv
    simp [apply_change, pySetattr, hv]

/-- Closed instance of C9: an accepted change lands verbatim. -/
theorem C9_witness :
    apply_change (fun _ _ => none) [("a", PyValue.pyint 0)] "a" ⟨.pyint 0, .pyint 7⟩ =
        .ok (pyDictInsert [("a", PyValue.pyint 0)] "a" (PyValue.pyint 7)) ∧
    pyDictGet? (pyDictInsert [("a", PyValue.pyint 0)] "a" (PyValue.pyint 7)) "a" =
      some (PyValue.pyint 7) :=
  ⟨((C9_apply_change_verbatim (fun _ _ => none) [("a", PyValue.pyint 0)] "a"
      ⟨.pyint 0, .pyint 7⟩).1 rfl).1,
    ((C9_apply_change_verbatim (fun _ _ => none) [("a", PyValue.pyint 0)] "a"
      ⟨.pyint 0, .pyint 7⟩).1 rfl).2.1⟩

/-- C10: an attribute whose exact kind has no entry in `_mapping` makes
`widget` raise the `KeyError` of the line-64 dict lookup before anything
else; and whenever `widget` returns a control, its class is exactly the
one `_mapping` assigns to the attribute kind. -/
theorem C10_mapping_table (lf : Option (String → String)) (obj : TargetObject)
    (n : String) (p : PParam) (hp : paramsGet? obj n = some p) :
    (pp_mapping p.kind = none →
      widget lf obj n = .error (.keyError (kindName p.kind))) ∧
    (∀ w, widget lf obj n = .ok w → pp_mapping p.kind = some w.widget_class) := by
  constructor
  · intro hm
    unfold widget widgetImpl
    simp [hp, hm]
  · intro w hw
    obtain ⟨_, pz, hpz, hmz⟩ := widgetImpl_ok_fields hw
    rw [hp] at hpz
    injection hpz with he
    rw [he]
    exact hmz

/-- Closed instance of C10 on `objKinds`: the `String`-kind attribute
raises the lookup `KeyError`, and the `Boolean`-kind attribute yields the
mapped `Checkbox` control. -/
theorem C10_witness :
    widget none objKinds "s" = .error (.keyError "String") ∧
    pp_mapping PKind.boolean = some WidgetClass.checkbox :=
  ⟨(C10_mapping_table none objKinds "s" ⟨.string, .pystr "v", none, none, none⟩
      (by decide)).1 rfl,
    (C10_mapping_table none objKinds "b" ⟨.boolean, .pybool true, none, none, none⟩
      (by decide)).2 ⟨.checkbox, .pybool true, "b", none, none, none, "b", none⟩ (by decide)⟩
